import Mathlib

/-!
Verification development for the Gapminder dashboard (src/APP.py).

The program is a Dash application whose computational core is pure:
filter an in-memory table of rows, sort a filtered copy by a metric
column, truncate to the top N, and build figure descriptions carrying a
theme template.  We embed that core shallowly: the dataframe is a
`List Record`, each builder is a Lean function returning a `Figure`
value that records the data content and the layout fields the
specification talks about (template, paper background, height,
placeholder annotation text).  Purely visual fields never mentioned by
the specification (margins, legend title, text position, color scale
names, hover data) are omitted.
-/

/-- One row of the gapminder dataframe
(`df = px.data.gapminder()`, APP.py line 13).  The two float-valued
columns (`lifeExp`, `gdpPercap`) are modelled as rationals; the sample
data contains no NaN, so exact arithmetic is a faithful model of the
comparisons the program performs. -/
structure Record where
  country : String
  continent : String
  year : Int
  lifeExp : Rat
  pop : Int
  gdpPercap : Rat
  iso_alpha : String
  iso_num : Int
deriving DecidableEq

/-- The three numeric columns `make_bar` is ever asked to rank by
(`y_col` at the call sites in `create_population_chart`,
`create_gdp_chart`, `create_life_exp_chart`) and that `VAR_MAP` maps
display labels to. -/
inductive Metric
  | pop
  | gdpPercap
  | lifeExp
deriving DecidableEq

/-- Value of the metric column in a row (populations are integers in
the source data; all three are compared as rationals). -/
def Metric.val : Metric → Record → Rat
  | .pop, r => (r.pop : Rat)
  | .gdpPercap, r => r.gdpPercap
  | .lifeExp, r => r.lifeExp

/-- A cell of the dataset table: string, integer or rational column
entry. -/
inductive Cell
  | s (v : String)
  | i (v : Int)
  | q (v : Rat)
deriving DecidableEq

/-- Embedding of `df[c]` for row `r`: the entry of column `c`.  `create_table` only
reads the eight columns of `df.columns`; the final branch is the
`iso_num` column. -/
def cellOf (c : String) (r : Record) : Cell :=
  if c = "country" then .s r.country
  else if c = "continent" then .s r.continent
  else if c = "year" then .i r.year
  else if c = "lifeExp" then .q r.lifeExp
  else if c = "pop" then .i r.pop
  else if c = "gdpPercap" then .q r.gdpPercap
  else if c = "iso_alpha" then .s r.iso_alpha
  else .i r.iso_num

/-- Embedding of `df.columns` in original order (APP.py line 13 comment). -/
def dfColumns : List String :=
  ["country", "continent", "year", "lifeExp", "pop", "gdpPercap", "iso_alpha", "iso_num"]

/-- Embedding of `TABLE_COL_RENAME.get(c, c)` (APP.py lines 16-25): the fixed rename
map, defaulting to the key itself for unknown columns. -/
def TABLE_COL_RENAME_get (c : String) : String :=
  if c = "country" then "Country"
  else if c = "continent" then "Continent"
  else if c = "year" then "Year"
  else if c = "lifeExp" then "Life Expectancy"
  else if c = "pop" then "Population"
  else if c = "gdpPercap" then "GDP per Capita"
  else if c = "iso_alpha" then "ISO Alpha Country Code"
  else if c = "iso_num" then "ISO Numeric Code"
  else c

/-- Embedding of `VAR_MAP.get(variable_display, "lifeExp")` (APP.py lines 33 and 91):
the fixed variable map with the documented fallback to the `lifeExp`
column for unknown labels. -/
def VAR_MAP_get (label : String) : Metric :=
  if label = "Population" then .pop
  else if label = "GDP per Capita" then .gdpPercap
  else if label = "Life Expectancy" then .lifeExp
  else .lifeExp

/-- Embedding of `continents = sorted(df["continent"].unique().tolist())`
(APP.py line 28).  pandas `unique` keeps first occurrences; composed
with `sorted` the result depends only on the set of values, so we
deduplicate and sort ascending. -/
def continentsOf (d : List Record) : List String :=
  List.insertionSort (fun a b => a ≤ b) (d.map (fun r => r.continent)).dedup

/-- Embedding of `years = sorted(df["year"].unique().tolist())` (APP.py line 29). -/
def yearsOf (d : List Record) : List Int :=
  List.insertionSort (fun a b => a ≤ b) (d.map (fun r => r.year)).dedup

/-- The bundle returned by `theme_settings` (APP.py lines 37-40). -/
structure ThemeBundle where
  template : String
  page_bg : String
  card_bg : String
  text : String
deriving DecidableEq

/-- Embedding of `theme_settings(theme)` (APP.py lines 37-40): "dark" yields the dark
bundle, every other value falls through to the light bundle. -/
def theme_settings (theme : String) : ThemeBundle :=
  if theme = "dark" then ⟨"plotly_dark", "#111827", "#1f2937", "#e5e7eb"⟩
  else ⟨"plotly_white", "#e5ecf6", "#ffffff", "#111827"⟩

/-- The data content of a figure.  `placeholder` is the empty-result
figure: it has no data trace, only the annotation text (drawn centered
at paper coordinates (0.5, 0.5) in the source).  `bar` records the
surviving rows in display order, the category column, the ranked
metric, whether the orientation is horizontal, and the title.  `table`
records headers and cell columns.  `choropleth` records the rows (one
region per row), the color metric and the locations column. -/
inductive FigData
  | placeholder (msg : String)
  | bar (rows : List Record) (xcol : String) (metric : Metric) (horizontal : Bool) (title : String)
  | table (headers : List String) (cells : List (List Cell))
  | choropleth (rows : List Record) (metric : Metric) (locations : String) (title : String)
deriving DecidableEq

/-- A figure: data content plus the layout fields the claims mention
(`template`, `paper_bgcolor`, `height` from `update_layout`). -/
structure Figure where
  data : FigData
  template : String
  paper_bgcolor : String
  height : Nat
deriving DecidableEq

/-- Default message of `empty_figure` (APP.py line 42). -/
def defaultEmptyMsg : String := "No data available for current filters."

/-- Embedding of `empty_figure(msg)` (APP.py lines 42-49): a figure with no data
trace, one centered annotation, fixed `plotly_white` template,
transparent paper background and height 420. -/
def empty_figure (msg : String) : Figure :=
  ⟨.placeholder msg, "plotly_white", "rgba(0,0,0,0)", 420⟩

/-- Embedding of `filtered.sort_values(by=y_col, ascending=False)` (APP.py line 54).
pandas implements a descending sort in `nargsort`
(pandas/core/sorting.py): it reverses the values and their positions
BEFORE computing an ascending argsort and reverses the resulting
indexer again AFTER, so the descending sort is
reverse-of-ascending-sort-of-reverse.  The double reversal makes the
descending sort keep rows with equal keys in their original order
whenever the underlying argsort is stable.  The ascending argsort is
modelled by a stable ascending sort, which is exact for
`kind="stable"` and whenever numpy's default sort behaves stably (it
always does below the quicksort partition threshold). -/
def sort_values_desc (m : Metric) (l : List Record) : List Record :=
  (List.insertionSort (fun a b => m.val a ≤ m.val b) l.reverse).reverse

/-- Embedding of `make_bar(filtered, x_col, y_col, title, template, orient, top_n)`
(APP.py lines 51-61).  An empty filtered frame short-circuits to
`empty_figure()` before the template is applied; otherwise the rows are
sorted by `y_col` descending, truncated to the first `top_n`, and drawn
as one bar per row, horizontal exactly when `orient == "h"`, with the
supplied template, transparent paper background and height 600. -/
def make_bar (filtered : List Record) (x_col : String) (y_col : Metric)
    (title template : String) (orient : String) (top_n : Nat) : Figure :=
  if filtered = [] then
    empty_figure defaultEmptyMsg
  else
    let data := (sort_values_desc y_col filtered).take top_n
    if orient = "h" then
      ⟨.bar data x_col y_col true title, template, "rgba(0,0,0,0)", 600⟩
    else
      ⟨.bar data x_col y_col false title, template, "rgba(0,0,0,0)", 600⟩

/-- Embedding of `create_table(template)` (APP.py lines 63-70).  `table_df` is `df`
with columns renamed by `TABLE_COL_RENAME`, and the code reads
`table_df[h]` for each renamed header `h`, which is exactly the
original column `c` with `TABLE_COL_RENAME.get(c, c) = h`; so the cell
columns are the original columns of `df` in original column and row
order. -/
def create_table (d : List Record) (template : String) : Figure :=
  let headers := dfColumns.map TABLE_COL_RENAME_get
  let vals := dfColumns.map (fun c => d.map (cellOf c))
  ⟨.table headers vals, template, "rgba(0,0,0,0)", 700⟩

/-- Embedding of `create_population_chart` (APP.py lines 72-76): filter to the exact
continent and year, then rank by `pop`. -/
def create_population_chart (d : List Record) (continent : String) (year : Int)
    (template : String) (orient : String) (top_n : Nat) : Figure :=
  let filtered := d.filter (fun r => r.continent == continent && r.year == year)
  make_bar filtered "country" .pop
    ("Population for " ++ continent ++ " in " ++ toString year) template orient top_n

/-- Embedding of `create_gdp_chart` (APP.py lines 78-82). -/
def create_gdp_chart (d : List Record) (continent : String) (year : Int)
    (template : String) (orient : String) (top_n : Nat) : Figure :=
  let filtered := d.filter (fun r => r.continent == continent && r.year == year)
  make_bar filtered "country" .gdpPercap
    ("GDP per Capita for " ++ continent ++ " in " ++ toString year) template orient top_n

/-- Embedding of `create_life_exp_chart` (APP.py lines 84-88). -/
def create_life_exp_chart (d : List Record) (continent : String) (year : Int)
    (template : String) (orient : String) (top_n : Nat) : Figure :=
  let filtered := d.filter (fun r => r.continent == continent && r.year == year)
  make_bar filtered "country" .lifeExp
    ("Life Expectancy for " ++ continent ++ " in " ++ toString year) template orient top_n

/-- Embedding of `create_choropleth_map(variable_display, year, template)`
(APP.py lines 90-101): resolve the label via `VAR_MAP.get` with the
`lifeExp` fallback, filter to the exact year, short-circuit to
`empty_figure()` when empty, otherwise one region per row located by
`iso_alpha` and colored by the resolved metric. -/
def create_choropleth_map (d : List Record) (variable_display : String) (year : Int)
    (template : String) : Figure :=
  let var_col := VAR_MAP_get variable_display
  let filtered := d.filter (fun r => r.year == year)
  if filtered = [] then
    empty_figure defaultEmptyMsg
  else
    ⟨.choropleth filtered var_col "iso_alpha"
        (variable_display ++ " Choropleth Map [" ++ toString year ++ "]"),
      template, "rgba(0,0,0,0)", 600⟩

/-- Rows drawn as bars (one bar per row); empty for non-bar figures. -/
def Figure.barRows : Figure → List Record
  | ⟨.bar rows _ _ _ _, _, _, _⟩ => rows
  | _ => []

/-- The distinct bar categories: the country names of the drawn rows,
deduplicated (px.bar categories with `x=x_col="country"`). -/
def Figure.barCategories (f : Figure) : List String :=
  (f.barRows.map (fun r => r.country)).dedup

/-- Whether a bar figure is horizontal. -/
def Figure.barHorizontal : Figure → Option Bool
  | ⟨.bar _ _ _ h _, _, _, _⟩ => some h
  | _ => none

/-- Whether the figure is the empty-result placeholder (no data
trace). -/
def Figure.isPlaceholder : Figure → Bool
  | ⟨.placeholder _, _, _, _⟩ => true
  | _ => false

/-- Annotation text of the placeholder figure. -/
def Figure.placeholderMsg : Figure → Option String
  | ⟨.placeholder m, _, _, _⟩ => some m
  | _ => none

/-- Rows of a choropleth figure (one region per row). -/
def Figure.mapRows : Figure → List Record
  | ⟨.choropleth rows _ _ _, _, _, _⟩ => rows
  | _ => []

/-- Color metric of a choropleth figure. -/
def Figure.mapMetric : Figure → Option Metric
  | ⟨.choropleth _ m _ _, _, _, _⟩ => some m
  | _ => none

/-- Locations column of a choropleth figure. -/
def Figure.mapLocations : Figure → Option String
  | ⟨.choropleth _ _ loc _, _, _, _⟩ => some loc
  | _ => none

/-- Header row of the table figure. -/
def Figure.tableHeaders : Figure → List String
  | ⟨.table hs _, _, _, _⟩ => hs
  | _ => []

/-- Cell columns of the table figure. -/
def Figure.tableCells : Figure → List (List Cell)
  | ⟨.table _ cs, _, _, _⟩ => cs
  | _ => []

/-! Helper lemmas about the sort and the builders. -/

instance (m : Metric) : IsTotal Record (fun a b => m.val a ≤ m.val b) :=
  ⟨fun a b => le_total (m.val a) (m.val b)⟩

instance (m : Metric) : IsTrans Record (fun a b => m.val a ≤ m.val b) :=
  ⟨fun _ _ _ hab hbc => le_trans hab hbc⟩

/-- The descending sort is a permutation-preserving operation: same
length as its input. -/
lemma length_sort_values_desc (m : Metric) (l : List Record) :
    (sort_values_desc m l).length = l.length := by
  simp [sort_values_desc, List.length_insertionSort]

/-- The descending sort keeps exactly the input rows. -/
lemma mem_sort_values_desc {m : Metric} {l : List Record} {r : Record} :
    r ∈ sort_values_desc m l ↔ r ∈ l := by
  simp [sort_values_desc, List.mem_insertionSort]

/-- The rows drawn by `make_bar`: none when the filtered frame is
empty, otherwise the descending sort truncated to `top_n`. -/
lemma barRows_make_bar (f : List Record) (x : String) (m : Metric)
    (ti tpl o : String) (n : Nat) :
    (make_bar f x m ti tpl o n).barRows =
      if f = [] then [] else (sort_values_desc m f).take n := by
  by_cases h : f = []
  · simp [make_bar, h, empty_figure, Figure.barRows]
  · by_cases ho : o = "h" <;> simp [make_bar, h, ho, Figure.barRows]

/-- Every drawn bar row comes from the filtered frame. -/
lemma mem_barRows_make_bar {f : List Record} {x : String} {m : Metric}
    {ti tpl o : String} {n : Nat} {r : Record}
    (hr : r ∈ (make_bar f x m ti tpl o n).barRows) : r ∈ f := by
  rw [barRows_make_bar] at hr
  by_cases h : f = []
  · simp [h] at hr
  · rw [if_neg h] at hr
    exact mem_sort_values_desc.mp (List.take_subset _ _ hr)

/-- At most `top_n` bar rows are drawn. -/
lemma length_barRows_le_topn (f : List Record) (x : String) (m : Metric)
    (ti tpl o : String) (n : Nat) :
    (make_bar f x m ti tpl o n).barRows.length ≤ n := by
  rw [barRows_make_bar]
  by_cases h : f = [] <;> simp [h, List.length_take]

/-- No more bar rows are drawn than the filtered frame has. -/
lemma length_barRows_le_filtered (f : List Record) (x : String) (m : Metric)
    (ti tpl o : String) (n : Nat) :
    (make_bar f x m ti tpl o n).barRows.length ≤ f.length := by
  rw [barRows_make_bar]
  by_cases h : f = []
  · simp [h]
  · rw [if_neg h]
    calc ((sort_values_desc m f).take n).length ≤ (sort_values_desc m f).length :=
          List.length_take_le' n _
      _ = f.length := length_sort_values_desc m f

/-- There are at most as many bar categories as bar rows. -/
lemma length_barCategories_le (fig : Figure) :
    fig.barCategories.length ≤ fig.barRows.length := by
  calc fig.barCategories.length ≤ (fig.barRows.map (fun r => r.country)).length :=
        List.Sublist.length_le (List.dedup_sublist _)
    _ = fig.barRows.length := List.length_map _ _

/-- Rows passing the continent-and-year filter match both exactly. -/
lemma of_mem_filter_cy {d : List Record} {c : String} {y : Int} {r : Record}
    (hr : r ∈ d.filter (fun r => r.continent == c && r.year == y)) :
    r.continent = c ∧ r.year = y := by
  have h := (List.mem_filter.mp hr).2
  simpa using h

/-- Bundled correctness of a ranked bar chart built from the
continent-and-year filter: all drawn rows match the filter, and the
category count is bounded by `top_n` and by the matching row count. -/
lemma ranked_bar_spec (d : List Record) (c : String) (y : Int) (x : String) (m : Metric)
    (ti tpl o : String) (n : Nat) :
    (∀ r ∈ (make_bar (d.filter (fun r => r.continent == c && r.year == y))
        x m ti tpl o n).barRows, r.continent = c ∧ r.year = y) ∧
    (make_bar (d.filter (fun r => r.continent == c && r.year == y))
        x m ti tpl o n).barCategories.length ≤ n ∧
    (make_bar (d.filter (fun r => r.continent == c && r.year == y))
        x m ti tpl o n).barCategories.length
      ≤ (d.filter (fun r => r.continent == c && r.year == y)).length := by
  refine ⟨fun r hr => of_mem_filter_cy (mem_barRows_make_bar hr), ?_, ?_⟩
  · exact le_trans (length_barCategories_le _) (length_barRows_le_topn _ _ _ _ _ _ _)
  · exact le_trans (length_barCategories_le _) (length_barRows_le_filtered _ _ _ _ _ _ _)

/-! Concrete sample rows used by witnesses and counterexamples. -/

/-- A sample Asian row for 1952, population 1000. -/
def rowA : Record := ⟨"Aland", "Asia", 1952, 50, 1000, 10, "ALA", 1⟩

/-- C1: For every continent, year, topN, orientation and theme, each
ranked-bar builder returns a figure in which every displayed row has
exactly the given continent and the given year, and the number of
categories is at most topN and at most the number of rows of the
dataset matching that (continent, year) pair. -/
theorem claim_C1_ranked_bar_filter_and_bounds (d : List Record) (c : String) (y : Int)
    (tpl o : String) (n : Nat) :
    ((∀ r ∈ (create_population_chart d c y tpl o n).barRows, r.continent = c ∧ r.year = y) ∧
      (create_population_chart d c y tpl o n).barCategories.length ≤ n ∧
      (create_population_chart d c y tpl o n).barCategories.length
        ≤ (d.filter (fun r => r.continent == c && r.year == y)).length) ∧
    ((∀ r ∈ (create_gdp_chart d c y tpl o n).barRows, r.continent = c ∧ r.year = y) ∧
      (create_gdp_chart d c y tpl o n).barCategories.length ≤ n ∧
      (create_gdp_chart d c y tpl o n).barCategories.length
        ≤ (d.filter (fun r => r.continent == c && r.year == y)).length) ∧
    ((∀ r ∈ (create_life_exp_chart d c y tpl o n).barRows, r.continent = c ∧ r.year = y) ∧
      (create_life_exp_chart d c y tpl o n).barCategories.length ≤ n ∧
      (create_life_exp_chart d c y tpl o n).barCategories.length
        ≤ (d.filter (fun r => r.continent == c && r.year == y)).length) := by
  refine ⟨?_, ?_, ?_⟩
  · simpa [create_population_chart] using ranked_bar_spec d c y "country" .pop
      ("Population for " ++ c ++ " in " ++ toString y) tpl o n
  · simpa [create_gdp_chart] using ranked_bar_spec d c y "country" .gdpPercap
      ("GDP per Capita for " ++ c ++ " in " ++ toString y) tpl o n
  · simpa [create_life_exp_chart] using ranked_bar_spec d c y "country" .lifeExp
      ("Life Expectancy for " ++ c ++ " in " ++ toString y) tpl o n

/-- Witness for C1, at the one-row dataset `[rowA]`, continent "Asia",
year 1952: the drawn row matches the filter. -/
theorem claim_C1_witness :
    rowA.continent = "Asia" ∧ rowA.year = (1952 : Int) :=
  (claim_C1_ranked_bar_filter_and_bounds [rowA] "Asia" 1952 "plotly_white" "v" 15).1.1
    rowA (by decide)

/-- C10: For every orientation value other than the exact string "h"
(including "vertical" or "Horizontal"), `make_bar` on a non-empty
filtered frame produces a vertical bar figure; the orientation test is
a plain string comparison with no error branch, so no error is ever
raised for an unrecognized orientation value. -/
theorem claim_C10_nonh_orientation_vertical (f : List Record) (x : String) (m : Metric)
    (ti tpl o : String) (n : Nat) (hf : f ≠ []) (ho : o ≠ "h") :
    (make_bar f x m ti tpl o n).barHorizontal = some false := by
  simp [make_bar, hf, ho, Figure.barHorizontal]

/-- Witness for C10 at the orientation string "Horizontal" (which is
not "h") and the one-row frame `[rowA]`. -/
theorem claim_C10_witness :
    (make_bar [rowA] "country" Metric.pop "t" "plotly_white" "Horizontal" 15).barHorizontal
      = some false :=
  claim_C10_nonh_orientation_vertical [rowA] "country" Metric.pop "t" "plotly_white"
    "Horizontal" 15 (by decide) (by decide)

/-- C3: Whenever the (continent, year) filter yields zero rows all
three bar builders return the empty placeholder, and whenever the year
filter yields zero rows the map builder does too; the placeholder is a
returned figure (no exception path exists) with no data series, bearing
only the centered "No data available" message. -/
theorem claim_C3_empty_filter_placeholder (d : List Record) (c : String) (y : Int)
    (v tpl o : String) (n : Nat) :
    (d.filter (fun r => r.continent == c && r.year == y) = [] →
      create_population_chart d c y tpl o n = empty_figure defaultEmptyMsg ∧
      create_gdp_chart d c y tpl o n = empty_figure defaultEmptyMsg ∧
      create_life_exp_chart d c y tpl o n = empty_figure defaultEmptyMsg) ∧
    (d.filter (fun r => r.year == y) = [] →
      create_choropleth_map d v y tpl = empty_figure defaultEmptyMsg) ∧
    (empty_figure defaultEmptyMsg).isPlaceholder = true ∧
    (empty_figure defaultEmptyMsg).barRows = [] ∧
    (empty_figure defaultEmptyMsg).mapRows = [] ∧
    (empty_figure defaultEmptyMsg).placeholderMsg = some defaultEmptyMsg := by
  refine ⟨fun hcy => ?_, fun hy => ?_, rfl, rfl, rfl, rfl⟩
  · exact ⟨by simp [create_population_chart, hcy, make_bar],
      by simp [create_gdp_chart, hcy, make_bar],
      by simp [create_life_exp_chart, hcy, make_bar]⟩
  · simp [create_choropleth_map, hy]

/-- Witness for C3 at the empty dataset, where both filters are empty:
the population chart and the map are the placeholder. -/
theorem claim_C3_witness :
    create_population_chart [] "Asia" 1952 "plotly_white" "v" 15
        = empty_figure defaultEmptyMsg ∧
    create_choropleth_map [] "Life Expectancy" 1952 "plotly_white"
        = empty_figure defaultEmptyMsg :=
  ⟨((claim_C3_empty_filter_placeholder [] "Asia" 1952 "Life Expectancy" "plotly_white"
      "v" 15).1 (by decide)).1,
    (claim_C3_empty_filter_placeholder [] "Asia" 1952 "Life Expectancy" "plotly_white"
      "v" 15).2.1 (by decide)⟩

/-- C4: `theme_settings` is a total pure function with exactly two
distinct output bundles: input "dark" yields the dark bundle, and every
other input — including "light" and any unknown string — yields the
light bundle.  As a Lean function it is deterministic (repeated calls
agree definitionally) and total (no error path). -/
theorem claim_C4_theme_settings_two_bundles :
    theme_settings "dark"
        = ⟨"plotly_dark", "#111827", "#1f2937", "#e5e7eb"⟩ ∧
    (∀ t : String, t ≠ "dark" →
      theme_settings t = ⟨"plotly_white", "#e5ecf6", "#ffffff", "#111827"⟩) ∧
    theme_settings "dark" ≠ theme_settings "light" := by
  refine ⟨rfl, fun t ht => ?_, by decide⟩
  simp [theme_settings, ht]

/-- Witness for C4 at the unknown selector "weird": it falls back to
the light bundle. -/
theorem claim_C4_witness :
    theme_settings "weird" = ⟨"plotly_white", "#e5ecf6", "#ffffff", "#111827"⟩ :=
  claim_C4_theme_settings_two_bundles.2.1 "weird" (by decide)

/-- C5: For every theme, the table builder renders the full, unfiltered
dataset: the headers are the eight renamed column names in original
column order, the cell columns are exactly the dataset's columns in
original column and row order, and every cell column's length (the
table's row count) equals the dataset's row count. -/
theorem claim_C5_table_full_dataset (d : List Record) (tpl : String) :
    (create_table d tpl).tableHeaders =
      ["Country", "Continent", "Year", "Life Expectancy", "Population",
        "GDP per Capita", "ISO Alpha Country Code", "ISO Numeric Code"] ∧
    (create_table d tpl).tableCells = dfColumns.map (fun c => d.map (cellOf c)) ∧
    (∀ col ∈ (create_table d tpl).tableCells, col.length = d.length) := by
  refine ⟨rfl, rfl, fun col hcol => ?_⟩
  simp only [create_table, Figure.tableCells] at hcol
  obtain ⟨c, _, rfl⟩ := List.mem_map.mp hcol
  exact List.length_map _ _

/-- Witness for C5 at the one-row dataset `[rowA]`: the country column
drawn by the table has exactly one row. -/
theorem claim_C5_witness :
    (List.map (cellOf "country") [rowA]).length = ([rowA] : List Record).length :=
  (claim_C5_table_full_dataset [rowA] "plotly_white").2.2
    (List.map (cellOf "country") [rowA]) (by decide)

/-- C6: The choropleth builder resolves the label through the fixed
variable map with unknown labels falling back to the `lifeExp` column,
filters the dataset to exactly the rows with the given year, and when
the filter is non-empty draws those rows as regions keyed by the
`iso_alpha` column and colored by the resolved metric, so the region
count equals the count of rows with that year. -/
theorem claim_C6_choropleth_resolution_and_regions (d : List Record) (v : String) (y : Int)
    (tpl : String) :
    (VAR_MAP_get "Population" = Metric.pop ∧
      VAR_MAP_get "GDP per Capita" = Metric.gdpPercap ∧
      VAR_MAP_get "Life Expectancy" = Metric.lifeExp) ∧
    (v ≠ "Population" → v ≠ "GDP per Capita" → v ≠ "Life Expectancy" →
      VAR_MAP_get v = Metric.lifeExp) ∧
    (∀ r ∈ (create_choropleth_map d v y tpl).mapRows, r.year = y) ∧
    (d.filter (fun r => r.year == y) ≠ [] →
      (create_choropleth_map d v y tpl).mapRows = d.filter (fun r => r.year == y) ∧
      (create_choropleth_map d v y tpl).mapRows.length
        = (d.filter (fun r => r.year == y)).length ∧
      (create_choropleth_map d v y tpl).mapMetric = some (VAR_MAP_get v) ∧
      (create_choropleth_map d v y tpl).mapLocations = some "iso_alpha") := by
  refine ⟨⟨rfl, rfl, rfl⟩, fun h1 h2 h3 => ?_, fun r hr => ?_, fun hne => ?_⟩
  · simp [VAR_MAP_get, h1, h2, h3]
  · by_cases h : d.filter (fun r => r.year == y) = []
    · simp [create_choropleth_map, h, empty_figure, Figure.mapRows] at hr
    · simp only [create_choropleth_map, h, if_neg h, Figure.mapRows] at hr
      simpa using (List.mem_filter.mp hr).2
  · refine ⟨?_, ?_, ?_, ?_⟩ <;> simp [create_choropleth_map, hne, Figure.mapRows,
      Figure.mapMetric, Figure.mapLocations]

/-- Witness for C6 at the one-row dataset `[rowA]` with the label
"GDP per Capita" and year 1952: the filter is non-empty and the region
metric is the resolved variable. -/
theorem claim_C6_witness :
    (create_choropleth_map [rowA] "GDP per Capita" 1952 "plotly_white").mapMetric
      = some (VAR_MAP_get "GDP per Capita") :=
  ((claim_C6_choropleth_resolution_and_regions [rowA] "GDP per Capita" 1952
    "plotly_white").2.2.2 (by decide)).2.2.1

/-- Template of a `make_bar` figure: the supplied template on a
non-empty filtered frame, the placeholder's fixed `plotly_white`
template otherwise (the early return on an empty frame happens before
`update_layout` applies the theme template). -/
lemma template_make_bar (f : List Record) (x : String) (m : Metric)
    (ti tpl o : String) (n : Nat) :
    (make_bar f x m ti tpl o n).template = if f = [] then "plotly_white" else tpl := by
  by_cases h : f = []
  · simp [make_bar, h, empty_figure]
  · by_cases ho : o = "h" <;> simp [make_bar, h, ho]

/-- Paper background of a `make_bar` figure: always the transparent
color, in the placeholder case as well. -/
lemma paper_bgcolor_make_bar (f : List Record) (x : String) (m : Metric)
    (ti tpl o : String) (n : Nat) :
    (make_bar f x m ti tpl o n).paper_bgcolor = "rgba(0,0,0,0)" := by
  by_cases h : f = []
  · simp [make_bar, h, empty_figure]
  · by_cases ho : o = "h" <;> simp [make_bar, h, ho]

/-- The data content, paper background and height of a `make_bar`
figure do not depend on the supplied template. -/
lemma make_bar_template_indep (f : List Record) (x : String) (m : Metric)
    (ti t₁ t₂ o : String) (n : Nat) :
    (make_bar f x m ti t₁ o n).data = (make_bar f x m ti t₂ o n).data ∧
    (make_bar f x m ti t₁ o n).paper_bgcolor = (make_bar f x m ti t₂ o n).paper_bgcolor ∧
    (make_bar f x m ti t₁ o n).height = (make_bar f x m ti t₂ o n).height := by
  by_cases h : f = []
  · simp [make_bar, h]
  · by_cases ho : o = "h" <;> simp [make_bar, h, ho]

/-- C7 counterexample: the claim asserts that the ranked-bar figure
carries the supplied theme's template even in the empty-filter case.
With the dark theme and an empty dataset the population chart returns
the placeholder whose template is the fixed "plotly_white", not the
supplied "plotly_dark". -/
theorem claim_C7_counterexample :
    (create_population_chart [] "Asia" 1952 (theme_settings "dark").template "v" 15).template
        = "plotly_white" ∧
    (theme_settings "dark").template = "plotly_dark" ∧
    "plotly_white" ≠ "plotly_dark" := by
  decide

/-- C7 as amended: the figure returned by each ranked-bar builder
always has the fixed transparent paper background; it carries the
supplied theme template exactly when the filtered set is non-empty,
and otherwise it is the placeholder with the fixed neutral
"plotly_white" template.  (The input dataset is never mutated: the
builders are pure functions of it.) -/
theorem claim_C7_amended_template_and_background (d : List Record) (c : String) (y : Int)
    (tpl o : String) (n : Nat) :
    (d.filter (fun r => r.continent == c && r.year == y) ≠ [] →
      (create_population_chart d c y tpl o n).template = tpl ∧
      (create_gdp_chart d c y tpl o n).template = tpl ∧
      (create_life_exp_chart d c y tpl o n).template = tpl) ∧
    (d.filter (fun r => r.continent == c && r.year == y) = [] →
      (create_population_chart d c y tpl o n).template = "plotly_white" ∧
      (create_gdp_chart d c y tpl o n).template = "plotly_white" ∧
      (create_life_exp_chart d c y tpl o n).template = "plotly_white") ∧
    (create_population_chart d c y tpl o n).paper_bgcolor = "rgba(0,0,0,0)" ∧
    (create_gdp_chart d c y tpl o n).paper_bgcolor = "rgba(0,0,0,0)" ∧
    (create_life_exp_chart d c y tpl o n).paper_bgcolor = "rgba(0,0,0,0)" := by
  refine ⟨fun hne => ?_, fun he => ?_, ?_, ?_, ?_⟩
  · refine ⟨?_, ?_, ?_⟩ <;>
      simp [create_population_chart, create_gdp_chart, create_life_exp_chart,
        template_make_bar, hne]
  · refine ⟨?_, ?_, ?_⟩ <;>
      simp [create_population_chart, create_gdp_chart, create_life_exp_chart,
        template_make_bar, he]
  · exact paper_bgcolor_make_bar _ _ _ _ _ _ _
  · exact paper_bgcolor_make_bar _ _ _ _ _ _ _
  · exact paper_bgcolor_make_bar _ _ _ _ _ _ _

/-- Witness for C7 as amended, at the one-row dataset `[rowA]` (filter
non-empty) with the dark template: the chart carries it. -/
theorem claim_C7_witness :
    (create_population_chart [rowA] "Asia" 1952 "plotly_dark" "v" 15).template
      = "plotly_dark" :=
  ((claim_C7_amended_template_and_background [rowA] "Asia" 1952 "plotly_dark" "v" 15).1
    (by decide)).1

/-- C8: For every fixed filter input, calling the bar, table and map
builders with the dark theme's template and then with the light
theme's template yields figures with identical data content (rows,
categories, values, regions) and identical non-template layout fields;
only the template (a style field) can differ. -/
theorem claim_C8_theme_only_affects_style (d : List Record) (c : String) (y : Int)
    (o v : String) (n : Nat) :
    ((create_population_chart d c y (theme_settings "dark").template o n).data
        = (create_population_chart d c y (theme_settings "light").template o n).data) ∧
    ((create_gdp_chart d c y (theme_settings "dark").template o n).data
        = (create_gdp_chart d c y (theme_settings "light").template o n).data) ∧
    ((create_life_exp_chart d c y (theme_settings "dark").template o n).data
        = (create_life_exp_chart d c y (theme_settings "light").template o n).data) ∧
    ((create_table d (theme_settings "dark").template).data
        = (create_table d (theme_settings "light").template).data) ∧
    ((create_choropleth_map d v y (theme_settings "dark").template).data
        = (create_choropleth_map d v y (theme_settings "light").template).data) ∧
    ((create_population_chart d c y (theme_settings "dark").template o n).paper_bgcolor
        = (create_population_chart d c y (theme_settings "light").template o n).paper_bgcolor) ∧
    ((create_population_chart d c y (theme_settings "dark").template o n).height
        = (create_population_chart d c y (theme_settings "light").template o n).height) := by
  refine ⟨?_, ?_, ?_, rfl, ?_, ?_, ?_⟩
  · exact (make_bar_template_indep _ _ _ _ _ _ _ _).1
  · exact (make_bar_template_indep _ _ _ _ _ _ _ _).1
  · exact (make_bar_template_indep _ _ _ _ _ _ _ _).1
  · by_cases h : d.filter (fun r => r.year == y) = [] <;>
      simp [create_choropleth_map, h]
  · exact (make_bar_template_indep _ _ _ _ _ _ _ _).2.1
  · exact (make_bar_template_indep _ _ _ _ _ _ _ _).2.2

/-- C9 counterexample: the claim asserts that building the derived
index from an empty dataset signals a MissingDataError before the UI is
constructed.  The index builder has no error path: on the empty dataset
it returns ordinary empty selector lists. -/
theorem claim_C9_counterexample :
    continentsOf [] = ([] : List String) ∧ yearsOf [] = ([] : List Int) :=
  ⟨rfl, rfl⟩

/-- C9 as amended: building the derived index never signals an error;
on an empty dataset it yields empty selector lists, and for every
dataset its continents and years are exactly the deduplicated distinct
values of the dataset, sorted ascending. -/
theorem claim_C9_amended_index_sorted_dedup (d : List Record) :
    (continentsOf d).Sorted (fun a b : String => a ≤ b) ∧
    (continentsOf d).Nodup ∧
    (∀ s : String, s ∈ continentsOf d ↔ s ∈ d.map (fun r => r.continent)) ∧
    (yearsOf d).Sorted (fun a b : Int => a ≤ b) ∧
    (yearsOf d).Nodup ∧
    (∀ y : Int, y ∈ yearsOf d ↔ y ∈ d.map (fun r => r.year)) := by
  refine ⟨?_, ?_, fun s => ?_, ?_, ?_, fun y => ?_⟩
  · exact List.sorted_insertionSort _ _
  · exact (List.perm_insertionSort _ _).nodup_iff.mpr (List.nodup_dedup _)
  · simp [continentsOf, List.mem_insertionSort, List.mem_dedup]
  · exact List.sorted_insertionSort _ _
  · exact (List.perm_insertionSort _ _).nodup_iff.mpr (List.nodup_dedup _)
  · simp [yearsOf, List.mem_insertionSort, List.mem_dedup]
